import Mathlib

/-
Verification development for the RAG research-assistant repository.
The embedded code is src/research_tool/rag.py: the two ingestion pipelines
(process_urls, process_documents), the lazily initialized global components,
and the query operation (generate_answer).  External collaborators (document
loaders, the text splitter, the vector index, the chat model) are abstracted
as oracle function parameters; the repository's own orchestration logic is
embedded faithfully, statement by statement, as event traces and pure
functions.
-/

namespace ResearchTool

/-- A LangChain Document as handled by rag.py: page text plus a metadata map,
modelled as an association list of string keys and values. -/
structure Doc where
  pageContent : String
  metadata : List (String × String)
  deriving DecidableEq

/-- External text-splitting function (langchain RecursiveCharacterTextSplitter
split_text), abstracted: raw text to the list of chunk texts. -/
abbrev SplitFn := String → List String

/-- Models RecursiveCharacterTextSplitter.split_documents as used at rag.py
lines 76 and 156: each document's text is split into pieces by the external
splitter, and each piece becomes a new document carrying the parent document's
metadata unchanged. -/
def splitDocuments (split : SplitFn) : List Doc → List Doc
  | [] => []
  | d :: rest =>
      (split d.pageContent).map (fun t => { pageContent := t, metadata := d.metadata }) ++
        splitDocuments split rest

/-- Arguments passed to the RecursiveCharacterTextSplitter constructor at a
call site of rag.py.  chunkOverlap is the value passed for chunk_overlap,
none when the call site omits the parameter. -/
structure SplitterConfig where
  separators : List String
  chunkSize : Nat
  chunkOverlap : Option Nat
  deriving DecidableEq

/-- CHUNK_SIZE constant, rag.py line 23. -/
def CHUNK_SIZE : Nat := 1000

/-- Splitter constructed by process_urls (rag.py lines 72-75): separators and
chunk_size only; chunk_overlap is not passed. -/
def urlTextSplitter : SplitterConfig :=
  { separators := ["\n\n", "\n", ".", " "], chunkSize := CHUNK_SIZE, chunkOverlap := none }

/-- Splitter constructed by process_documents (rag.py lines 151-155):
separators, chunk_size, and chunk_overlap=200. -/
def docTextSplitter : SplitterConfig :=
  { separators := ["\n\n", "\n", ".", " "], chunkSize := CHUNK_SIZE,
    chunkOverlap := some 200 }

/-- Default value of the chunk_overlap parameter of the external dependency
langchain_text_splitters (TextSplitter init signature: chunk_size is 4000 and
chunk_overlap is 200 by default).  This constant is the only definition taken
from the external library rather than from the repository: it is what a call
site gets when it omits chunk_overlap. -/
def DEFAULT_CHUNK_OVERLAP : Nat := 200

/-- Overlap actually in force for a configured splitter: the explicit value
when one was passed, the library default otherwise. -/
def SplitterConfig.effectiveOverlap (c : SplitterConfig) : Nat :=
  c.chunkOverlap.getD DEFAULT_CHUNK_OVERLAP

/-- Observable steps performed by an ingestion pipeline run, in program order:
yielded status strings, component initialization, the vector-store reset,
temporary-file writes and removals, the split stage, and the add stage. -/
inductive Event where
  | status (msg : String)
  | initComponents
  | reset
  | writeTmp (path : String)
  | removeTmp (path : String)
  | split (nDocs nChunks : Nat)
  | add (chunks : List Doc)
  deriving DecidableEq

/-- Event trace of process_urls (rag.py lines 55-82): yields, the reset, the
load (external), the split, and the add of all chunks, ending in the fixed
terminal status.  loadUrls abstracts UnstructuredURLLoader.load. -/
def process_urls (loadUrls : List String → List Doc) (split : SplitFn)
    (urls : List String) : List Event :=
  let docs := loadUrls urls
  let chunks := splitDocuments split docs
  [Event.status "Initializing Components", Event.initComponents,
   Event.status "Resetting vector store...✅", Event.reset,
   Event.status "Loading data...✅",
   Event.status "Splitting text into chunks...✅",
   Event.split docs.length chunks.length,
   Event.status "Add chunks to vector database...✅",
   Event.add chunks,
   Event.status "Done adding docs to vector database...✅"]

/-- An uploaded file as received by process_documents: display name and raw
byte content (bytes modelled as a string). -/
structure UploadedFile where
  name : String
  content : String
  deriving DecidableEq

/-- Characters of the final path component of a file name: a slash discards
everything seen so far. -/
def baseNameChars (cs : List Char) : List Char :=
  cs.foldl (fun acc c => if c = '/' then [] else acc ++ [c]) []

/-- Models pathlib Path(name).suffix on the characters of the final path
component: the substring from the last dot on, provided that dot is neither
the first nor the last character of the component; empty otherwise. -/
def suffixOfChars (cs : List Char) : List Char :=
  match cs.reverse.findIdx? (fun c => c = '.') with
  | none => []
  | some j =>
      if 0 < j ∧ j < cs.length - 1 then (cs.reverse.take (j + 1)).reverse else []

/-- Models Path(uploaded_file.name).suffix.lower(), rag.py line 102. -/
def fileExt (name : String) : String :=
  String.mk ((suffixOfChars (baseNameChars name.toList)).map Char.toLower)

/-- The four document loaders process_documents can select from. -/
inductive LoaderKind where
  | pdf
  | docx
  | txt
  | unstructured
  deriving DecidableEq

/-- Loader dispatch on the lowercased file extension, rag.py lines 113-122. -/
def selectLoader (ext : String) : LoaderKind :=
  if ext = ".pdf" then LoaderKind.pdf
  else if ext = ".docx" ∨ ext = ".doc" then LoaderKind.docx
  else if ext = ".txt" then LoaderKind.txt
  else LoaderKind.unstructured

/-- Fresh temporary path produced by tempfile.NamedTemporaryFile with
delete=False and the file's suffix (rag.py line 106) for the i-th uploaded
file; the generated name is opaque, modelled deterministically by index. -/
def tmpName (i : Nat) (ext : String) : String :=
  "/tmp/tmp" ++ toString i ++ ext

/-- External loader behavior: for a chosen loader kind and the file's content,
either the loaded documents or an exception message.  Abstracts
loader.load() at rag.py line 124 together with any exception it raises. -/
abbrev LoadFn := LoaderKind → String → Except String (List Doc)

/-- Documents contributed by one uploaded file to all_docs: the loaded list on
success, nothing when the loader raised (the except branch adds nothing). -/
def loadedDocs (load : LoadFn) (f : UploadedFile) : List Doc :=
  match load (selectLoader (fileExt f.name)) f.content with
  | Except.ok ds => ds
  | Except.error _ => []

/-- Aggregate of all_docs over the whole batch, rag.py lines 97 and 126. -/
def collectDocs (load : LoadFn) : List UploadedFile → List Doc
  | [] => []
  | f :: rest => loadedDocs load f ++ collectDocs load rest

/-- Outcome status emitted for one file by the body of the per-file loop
(rag.py lines 124-136): the Loaded line with a count on a successful
non-empty load, the Warning line on a successful empty load, and — because
the per-file try/except catches the exception at the point of occurrence —
the Error line when the loader raised. -/
def perFileOutcome (load : LoadFn) (f : UploadedFile) : String :=
  match load (selectLoader (fileExt f.name)) f.content with
  | Except.ok [] => "⚠️ Warning: " ++ f.name ++ " loaded but contains no content"
  | Except.ok ds =>
      "✅ Loaded " ++ f.name ++ " (" ++ toString ds.length ++ " pages/chunks)"
  | Except.error e => "❌ Error loading " ++ f.name ++ ": " ++ e

/-- Events of the per-file loop of process_documents (rag.py lines 101-136),
starting at temp-file index i: for each file, the temp-file write, the
Loading status, and exactly one outcome status chosen by the loader result.
A raised per-file exception is caught and converted to its outcome status;
the loop then continues with the remaining files. -/
def loopEvents (load : LoadFn) : Nat → List UploadedFile → List Event
  | _, [] => []
  | i, f :: rest =>
      Event.writeTmp (tmpName i (fileExt f.name)) ::
      Event.status ("Loading " ++ f.name ++ "...") ::
      Event.status (perFileOutcome load f) ::
      loopEvents load (i + 1) rest

/-- Events of the cleanup loop over tmp_paths (rag.py lines 139-144), which
runs after the whole per-file loop: one removal per written temp file. -/
def cleanupEvents : Nat → List UploadedFile → List Event
  | _, [] => []
  | i, f :: rest =>
      Event.removeTmp (tmpName i (fileExt f.name)) :: cleanupEvents (i + 1) rest

/-- Events after the cleanup loop (rag.py lines 146-163): the terminal failure
status and early return when all_docs is empty, otherwise the split stage and
the add stage with their statuses, ending in the terminal success status. -/
def tailEvents (load : LoadFn) (split : SplitFn) (files : List UploadedFile) :
    List Event :=
  if collectDocs load files = [] then
    [Event.status
      "❌ No documents were successfully loaded. Please check file formats and try again."]
  else
    [Event.status ("Splitting " ++ toString (collectDocs load files).length ++
       " document(s) into chunks...✅"),
     Event.split (collectDocs load files).length
       (splitDocuments split (collectDocs load files)).length,
     Event.status ("Created " ++
       toString (splitDocuments split (collectDocs load files)).length ++
       " chunks from documents"),
     Event.status "Adding chunks to vector database...✅",
     Event.add (splitDocuments split (collectDocs load files)),
     Event.status ("✅ Done! Added " ++
       toString (splitDocuments split (collectDocs load files)).length ++
       " chunks to vector database. You can now ask questions.")]

/-- Event trace of process_documents (rag.py lines 85-163). -/
def process_documents (load : LoadFn) (split : SplitFn)
    (files : List UploadedFile) : List Event :=
  [Event.status "Initializing Components", Event.initComponents,
   Event.status "Resetting vector store...✅", Event.reset] ++
  loopEvents load 0 files ++ cleanupEvents 0 files ++ tailEvents load split files

/-- Events actually executed when the caller of a generator-based pipeline
consumes exactly k yielded status strings and then stops: code between yields
runs only when the following status is requested, so execution covers the
trace up to and including the k-th status event and nothing after it. -/
def takeThroughStatuses : Nat → List Event → List Event
  | _, [] => []
  | 0, _ :: _ => []
  | k + 1, Event.status m :: rest => Event.status m :: takeThroughStatuses k rest
  | k + 1, e :: rest => e :: takeThroughStatuses (k + 1) rest

/-- Effect of one pipeline event on the stored chunk list: reset_collection
discards everything, add_documents appends the given chunks, every other
event leaves the store unchanged. -/
def applyEvent (s : List Doc) : Event → List Doc
  | Event.reset => []
  | Event.add chunks => s ++ chunks
  | _ => s

/-- Stored chunk list after executing a trace from an initial store. -/
def runStore (tr : List Event) (init : List Doc) : List Doc :=
  tr.foldl applyEvent init

/-- Source metadata value a retrieved chunk contributes to source_urls
(rag.py lines 205-207): present when the metadata map is non-empty (Python
truthiness) and contains the key "source". -/
def docSource (d : Doc) : Option String :=
  if d.metadata.isEmpty then none else d.metadata.lookup "source"

/-- All source values added to the source_urls set, in retrieval order. -/
def collectSources (docs : List Doc) : List String :=
  docs.filterMap docSource

/-- Models sorted(source_urls) at rag.py line 208, source_urls being a Python
set: the distinct collected source values in ascending order. -/
def sourceList (docs : List Doc) : List String :=
  List.insertionSort (fun a b => a ≤ b) (collectSources docs).dedup

/-- Models the sources string of rag.py line 208: the sorted distinct source
values joined with newlines, the empty string when the set is empty. -/
def sourcesStr (docs : List Doc) : String :=
  if collectSources docs = [] then "" else String.intercalate "\n" (sourceList docs)

/-- Chat-model response as consumed by rag.py line 200: the response object
may be absent, and its content attribute may be absent. -/
structure ChatResponse where
  content : Option String
  deriving DecidableEq

/-- The module-level mutable components of rag.py (lines 28-29): whether the
llm client has been created, and the vector store (none until created, then
the stored chunk list). -/
structure Components where
  llmReady : Bool
  store : Option (List Doc)
  deriving DecidableEq

/-- Models initialize_components (rag.py lines 32-52): creates the chat model
if absent, and if the vector store is absent attaches it to the persisted
collection in the fixed local directory. -/
def initialize_components (persisted : List Doc) (c : Components) : Components :=
  { llmReady := true,
    store :=
      match c.store with
      | none => some persisted
      | some s => some s }

/-- Prompt text produced by formatting the fixed template of rag.py lines
174-188 with a context block and a question. -/
def formatPrompt (context question : String) : String :=
  "\n        You are a helpful research assistant.\n        Answer the question using only the provided context.\n        If the answer is not contained in the context, reply:\n        \"I don\x27t have enough information to answer this question.\"\n\n        Context:\n        " ++
  context ++
  "\n\n        Question: " ++ question ++ "\n\n        Answer (concise):\n        "

/-- Similarity retrieval over the stored chunks (vector_store.as_retriever()
followed by retriever.invoke(query)), abstracted as an oracle: the stored
chunk list and the query determine the retrieved chunks. -/
abbrev RetrieveFn := List Doc → String → List Doc

/-- The external chat model (llm.invoke on the formatted prompt), abstracted
as an oracle from the prompt text to an optional response. -/
abbrev LlmFn := String → Option ChatResponse

/-- Models generate_answer (rag.py lines 166-210).  Returns the updated
components (the lazy initialization may create them) and either the
uninitialized-store error raised at line 171 or the (answer, sources) pair. -/
def generate_answer (retrieve : RetrieveFn) (llmInvoke : LlmFn)
    (persisted : List Doc) (c : Components) (query : String) :
    Components × Except String (String × String) :=
  let c1 :=
    match c.store with
    | none => initialize_components persisted c
    | some _ => c
  match c1.store with
  | none =>
      (c1, Except.error
        "Vector database is not initialized. Please process URLs or documents first.")
  | some stored =>
      let docs := retrieve stored query
      let contextText := String.intercalate "\n\n" (docs.map Doc.pageContent)
      let response := llmInvoke (formatPrompt contextText query)
      let answer :=
        match response with
        | none => ""
        | some r => r.content.getD ""
      (c1, Except.ok (answer, sourcesStr docs))

/-- Folding the store state distributes over trace concatenation. -/
theorem runStore_append (a b : List Event) (s : List Doc) :
    runStore (a ++ b) s = runStore b (runStore a s) := by
  simp [runStore, List.foldl_append]

/-- The per-file loop emits only temp-file writes and statuses, so it leaves
the stored chunk list unchanged. -/
theorem runStore_loopEvents (load : LoadFn) :
    ∀ (i : Nat) (files : List UploadedFile) (s : List Doc),
      runStore (loopEvents load i files) s = s := by
  intro i files
  induction files generalizing i with
  | nil => intro s; rfl
  | cons f rest ih =>
      intro s
      simp only [loopEvents, runStore, List.foldl_cons, applyEvent]
      exact ih (i + 1) s

/-- The cleanup loop emits only temp-file removals, so it leaves the stored
chunk list unchanged. -/
theorem runStore_cleanupEvents :
    ∀ (i : Nat) (files : List UploadedFile) (s : List Doc),
      runStore (cleanupEvents i files) s = s := by
  intro i files
  induction files generalizing i with
  | nil => intro s; rfl
  | cons f rest ih =>
      intro s
      simp only [cleanupEvents, runStore, List.foldl_cons, applyEvent]
      exact ih (i + 1) s

/-- When every file contributes no documents, the aggregated corpus is
empty. -/
theorem collectDocs_eq_nil (load : LoadFn) :
    ∀ (files : List UploadedFile), (∀ f ∈ files, loadedDocs load f = []) →
      collectDocs load files = [] := by
  intro files h
  induction files with
  | nil => rfl
  | cons f rest ih =>
      simp [collectDocs, h f (by simp), ih (fun g hg => h g (by simp [hg]))]

/-- Shape of events in the per-file loop: only writes and statuses occur. -/
theorem mem_loopEvents (load : LoadFn) :
    ∀ (i : Nat) (files : List UploadedFile) (e : Event),
      e ∈ loopEvents load i files →
      (∃ p, e = Event.writeTmp p) ∨ (∃ m, e = Event.status m) := by
  intro i files
  induction files generalizing i with
  | nil => intro e he; simp [loopEvents] at he
  | cons f rest ih =>
      intro e he
      simp only [loopEvents, List.mem_cons] at he
      rcases he with rfl | rfl | rfl | he
      · exact Or.inl ⟨_, rfl⟩
      · exact Or.inr ⟨_, rfl⟩
      · exact Or.inr ⟨_, rfl⟩
      · exact ih (i + 1) e he

/-- Shape of events in the cleanup loop: only removals occur. -/
theorem mem_cleanupEvents :
    ∀ (i : Nat) (files : List UploadedFile) (e : Event),
      e ∈ cleanupEvents i files → ∃ p, e = Event.removeTmp p := by
  intro i files
  induction files generalizing i with
  | nil => intro e he; simp [cleanupEvents] at he
  | cons f rest ih =>
      intro e he
      simp only [cleanupEvents, List.mem_cons] at he
      rcases he with rfl | he
      · exact ⟨_, rfl⟩
      · exact ih (i + 1) e he

/-- Shape of events after the cleanup loop: only statuses, the split stage,
and the add stage occur. -/
theorem mem_tailEvents (load : LoadFn) (split : SplitFn)
    (files : List UploadedFile) (e : Event) :
    e ∈ tailEvents load split files →
    (∃ m, e = Event.status m) ∨ (∃ n k, e = Event.split n k) ∨
      (∃ cs, e = Event.add cs) := by
  intro h
  unfold tailEvents at h
  by_cases hc : collectDocs load files = []
  · rw [if_pos hc] at h
    simp only [List.mem_singleton] at h
    exact Or.inl ⟨_, h⟩
  · rw [if_neg hc] at h
    simp only [List.mem_cons, List.not_mem_nil, or_false] at h
    rcases h with rfl | rfl | rfl | rfl | rfl | rfl
    · exact Or.inl ⟨_, rfl⟩
    · exact Or.inr (Or.inl ⟨_, _, rfl⟩)
    · exact Or.inl ⟨_, rfl⟩
    · exact Or.inl ⟨_, rfl⟩
    · exact Or.inr (Or.inr ⟨_, rfl⟩)
    · exact Or.inl ⟨_, rfl⟩

/-- Every temp-file write of the per-file loop has a matching removal in the
cleanup loop started at the same index. -/
theorem writeTmp_loop_remove_cleanup (load : LoadFn) :
    ∀ (i : Nat) (files : List UploadedFile) (p : String),
      Event.writeTmp p ∈ loopEvents load i files →
      Event.removeTmp p ∈ cleanupEvents i files := by
  intro i files
  induction files generalizing i with
  | nil => intro p h; simp [loopEvents] at h
  | cons f rest ih =>
      intro p h
      simp only [loopEvents, List.mem_cons] at h
      rcases h with h | h | h | h
      · rcases Event.writeTmp.inj h with rfl
        simp [cleanupEvents]
      · exact absurd h (by simp)
      · exact absurd h (by simp)
      · simp [cleanupEvents, ih (i + 1) p h]

/-- Both per-file statuses of a file in the batch appear in the loop trace,
whatever the loader did for this or any other file. -/
theorem loop_statuses_of_mem (load : LoadFn) :
    ∀ (i : Nat) (files : List UploadedFile) (f : UploadedFile), f ∈ files →
      Event.status ("Loading " ++ f.name ++ "...") ∈ loopEvents load i files ∧
      Event.status (perFileOutcome load f) ∈ loopEvents load i files := by
  intro i files
  induction files generalizing i with
  | nil => intro f hf; simp at hf
  | cons g rest ih =>
      intro f hf
      rcases List.mem_cons.mp hf with rfl | hf
      · constructor <;> simp [loopEvents]
      · obtain ⟨h1, h2⟩ := ih (i + 1) f hf
        constructor <;> simp [loopEvents, h1, h2]

/-- C3 counterexample: the claim states that adjacent chunks overlap by
exactly 0 characters in URL-mode ingestion, but process_urls omits the
chunk_overlap parameter, so the external splitter default of 200 applies: the
effective URL-mode overlap is 200, not 0. -/
theorem url_mode_overlap_not_zero :
    urlTextSplitter.effectiveOverlap = 200 ∧ urlTextSplitter.effectiveOverlap ≠ 0 :=
  ⟨rfl, by decide⟩

/-- C3 (amended): both ingestion modes run the splitter with an effective
chunk overlap of 200 characters — document mode passes 200 explicitly
(rag.py line 154), URL mode omits the parameter (rag.py lines 72-75) and so
inherits the library default of 200. -/
theorem chunk_overlap_both_modes_200 :
    urlTextSplitter.chunkOverlap = none ∧
    docTextSplitter.chunkOverlap = some 200 ∧
    urlTextSplitter.effectiveOverlap = 200 ∧
    docTextSplitter.effectiveOverlap = 200 :=
  ⟨rfl, rfl, rfl, rfl⟩

/-- C1: evaluation of the code at the failing input.  In a fresh process (no
components created, no prior ingestion) generate_answer does not fail with
the uninitialized-store error: the lazy initialization it performs first
always produces a store, making the error branch of rag.py line 171
unreachable, so the call goes on to answer over the empty collection.  The
first conjunct shows the error is unreachable for every input; the second
evaluates the fresh-process call concretely: it returns the model answer,
not the error. -/
theorem generate_answer_uninitialized_not_rejected :
    (∀ (retrieve : RetrieveFn) (llmInvoke : LlmFn) (persisted : List Doc)
        (c : Components) (q : String),
      ((generate_answer retrieve llmInvoke persisted c q).2).isOk = true) ∧
    generate_answer (fun _ _ => []) (fun _ => some { content := some "model answer" })
        [] { llmReady := false, store := none } "anything" =
      ({ llmReady := true, store := some [] },
       Except.ok ("model answer", "")) := by
  constructor
  · intro retrieve llmInvoke persisted c q
    obtain ⟨l, st⟩ := c
    cases st <;> rfl
  · rfl

/-- C9: process_urls performs no empty-corpus check: when the URL loader
yields zero documents, the run still executes the splitting and add stages
(with zero chunks) and ends with its fixed terminal success status; the full
trace is computed exactly and contains no failure marker. -/
theorem process_urls_empty_corpus_success :
    ∀ (loadUrls : List String → List Doc) (split : SplitFn) (urls : List String),
      loadUrls urls = [] →
      process_urls loadUrls split urls =
        [Event.status "Initializing Components", Event.initComponents,
         Event.status "Resetting vector store...✅", Event.reset,
         Event.status "Loading data...✅",
         Event.status "Splitting text into chunks...✅",
         Event.split 0 0,
         Event.status "Add chunks to vector database...✅",
         Event.add [],
         Event.status "Done adding docs to vector database...✅"] := by
  intro loadUrls split urls h
  simp [process_urls, h, splitDocuments]

/-- C9 witness: a loader returning no documents on a concrete URL list. -/
theorem process_urls_empty_corpus_success_witness :
    (fun (_ : List String) => ([] : List Doc)) ["https://example.com/a"] = [] ∧
    process_urls (fun _ => []) (fun t => [t]) ["https://example.com/a"] =
      [Event.status "Initializing Components", Event.initComponents,
       Event.status "Resetting vector store...✅", Event.reset,
       Event.status "Loading data...✅",
       Event.status "Splitting text into chunks...✅",
       Event.split 0 0,
       Event.status "Add chunks to vector database...✅",
       Event.add [],
       Event.status "Done adding docs to vector database...✅"] :=
  ⟨rfl, process_urls_empty_corpus_success (fun _ => []) (fun t => [t])
    ["https://example.com/a"] rfl⟩

/-- C10: generate_answer never modifies the knowledge store: when the store
was initialized by a prior ingestion run, the components returned by
generate_answer — and with them the stored chunk list, its identifiers and
metadata — are exactly the input ones. -/
theorem generate_answer_preserves_store :
    ∀ (retrieve : RetrieveFn) (llmInvoke : LlmFn) (persisted stored : List Doc)
      (c : Components) (q : String),
      c.store = some stored →
      (generate_answer retrieve llmInvoke persisted c q).1 = c := by
  intro retrieve llmInvoke persisted stored c q h
  obtain ⟨l, st⟩ := c
  cases st with
  | none => exact Option.noConfusion h
  | some s => rfl

/-- C10 witness: concrete instantiation of the frame theorem on an
initialized store. -/
theorem generate_answer_preserves_store_witness :
    ({ llmReady := true, store := some [] } : Components).store = some [] ∧
    (generate_answer (fun _ _ => []) (fun _ => none) []
        { llmReady := true, store := some [] } "q").1 =
      { llmReady := true, store := some [] } :=
  ⟨rfl, generate_answer_preserves_store _ _ _ _ _ _ rfl⟩

/-- C4: every ingestion run resets the store before adding: replaying either
pipeline's trace over any prior store content yields exactly the chunks split
from the corpus loaded in this run (and nothing from the prior content), for
process_documents the empty list when the batch aggregated no documents. -/
theorem ingestion_resets_store :
    ∀ (loadUrls : List String → List Doc) (load : LoadFn) (split : SplitFn)
      (urls : List String) (files : List UploadedFile) (prior priorD : List Doc),
      runStore (process_urls loadUrls split urls) prior =
        splitDocuments split (loadUrls urls) ∧
      runStore (process_documents load split files) priorD =
        (if collectDocs load files = [] then []
         else splitDocuments split (collectDocs load files)) := by
  intro loadUrls load split urls files prior priorD
  constructor
  · simp [process_urls, runStore, applyEvent]
  · rw [process_documents, runStore_append, runStore_append, runStore_append]
    have h1 : runStore [Event.status "Initializing Components", Event.initComponents,
        Event.status "Resetting vector store...✅", Event.reset] priorD = [] := rfl
    rw [h1, runStore_loopEvents, runStore_cleanupEvents]
    unfold tailEvents
    by_cases hc : collectDocs load files = []
    · rw [if_pos hc, if_pos hc]
      rfl
    · rw [if_neg hc, if_neg hc]
      simp [runStore, applyEvent]

/-- C2: when every file in the batch fails to contribute documents (zero
LoadedDocuments aggregated), process_documents emits the terminal failure
status as the last event of its trace and stops before the chunking stage:
the trace contains no split event and no add event. -/
theorem process_documents_empty_corpus_terminal :
    ∀ (load : LoadFn) (split : SplitFn) (files : List UploadedFile),
      (∀ f ∈ files, loadedDocs load f = []) →
      (process_documents load split files).getLast? =
        some (Event.status
          "❌ No documents were successfully loaded. Please check file formats and try again.") ∧
      ∀ e ∈ process_documents load split files,
        (∀ n m, e ≠ Event.split n m) ∧ (∀ cs, e ≠ Event.add cs) := by
  intro load split files hall
  have hc : collectDocs load files = [] := collectDocs_eq_nil load files hall
  have htail : tailEvents load split files =
      [Event.status
        "❌ No documents were successfully loaded. Please check file formats and try again."] := by
    unfold tailEvents
    rw [if_pos hc]
  constructor
  · rw [process_documents, htail, List.getLast?_concat]
  · intro e he
    rw [process_documents] at he
    simp only [List.mem_append] at he
    rcases he with ((hpre | hloop) | hclean) | htl
    · simp only [List.mem_cons, List.not_mem_nil, or_false] at hpre
      rcases hpre with rfl | rfl | rfl | rfl <;>
        exact ⟨fun n m => by simp, fun cs => by simp⟩
    · rcases mem_loopEvents load 0 files e hloop with ⟨p, rfl⟩ | ⟨m, rfl⟩ <;>
        exact ⟨fun n m => by simp, fun cs => by simp⟩
    · rcases mem_cleanupEvents 0 files e hclean with ⟨p, rfl⟩
      exact ⟨fun n m => by simp, fun cs => by simp⟩
    · rw [htail] at htl
      simp only [List.mem_singleton] at htl
      subst htl
      exact ⟨fun n m => by simp, fun cs => by simp⟩

/-- C2 witness: a one-file batch whose loader raises. -/
theorem process_documents_empty_corpus_terminal_witness :
    (∀ f ∈ [({ name := "b.bin", content := "x" } : UploadedFile)],
        loadedDocs (fun _ _ => Except.error "boom") f = []) ∧
    ((process_documents (fun _ _ => Except.error "boom") (fun t => [t])
        [{ name := "b.bin", content := "x" }]).getLast? =
      some (Event.status
        "❌ No documents were successfully loaded. Please check file formats and try again.") ∧
      ∀ e ∈ process_documents (fun _ _ => Except.error "boom") (fun t => [t])
          [{ name := "b.bin", content := "x" }],
        (∀ n m, e ≠ Event.split n m) ∧ (∀ cs, e ≠ Event.add cs)) :=
  ⟨by decide, process_documents_empty_corpus_terminal _ _ _ (by decide)⟩

/-- C6 counterexample: the claim asserts the temporary file is removed even
when the caller stops consuming the status sequence early, but the cleanup
loop only runs inside the generator body after the whole per-file loop.
Concretely: one text file whose load succeeds; after the caller consumes
three statuses the temp file has been written and no removal has executed,
and a caller that stops here never executes one. -/
theorem tmp_file_leak_on_early_stop :
    Event.writeTmp "/tmp/tmp0.txt" ∈
      takeThroughStatuses 3
        (process_documents
          (fun _ c => Except.ok [{ pageContent := c, metadata := [("source", "a.txt")] }])
          (fun t => [t]) [{ name := "a.txt", content := "hello" }]) ∧
    Event.removeTmp "/tmp/tmp0.txt" ∉
      takeThroughStatuses 3
        (process_documents
          (fun _ c => Except.ok [{ pageContent := c, metadata := [("source", "a.txt")] }])
          (fun t => [t]) [{ name := "a.txt", content := "hello" }]) := by
  constructor
  · decide
  · decide

/-- C6 (amended): in a fully executed run (status sequence consumed to
completion), every temporary file written for a file of the batch is removed
by the cleanup loop after the per-file loop, regardless of whether that
file's extraction succeeded or failed; removal is not guaranteed when the
caller abandons the sequence before the cleanup point. -/
theorem tmp_files_removed_on_full_run :
    ∀ (load : LoadFn) (split : SplitFn) (files : List UploadedFile) (p : String),
      Event.writeTmp p ∈ process_documents load split files →
      Event.removeTmp p ∈ process_documents load split files := by
  intro load split files p h
  rw [process_documents] at h
  simp only [List.mem_append] at h
  have hmem : Event.writeTmp p ∈ loopEvents load 0 files := by
    rcases h with ((hpre | hloop) | hclean) | htl
    · simp at hpre
    · exact hloop
    · rcases mem_cleanupEvents 0 files _ hclean with ⟨q, hq⟩
      exact absurd hq (by simp)
    · rcases mem_tailEvents load split files _ htl with ⟨m, hm⟩ | ⟨n, k, hk⟩ | ⟨cs, hcs⟩
      · exact absurd hm (by simp)
      · exact absurd hk (by simp)
      · exact absurd hcs (by simp)
  have hrem : Event.removeTmp p ∈ cleanupEvents 0 files :=
    writeTmp_loop_remove_cleanup load 0 files p hmem
  rw [process_documents]
  simp only [List.mem_append]
  exact Or.inl (Or.inr hrem)

/-- C6 amended witness: a failing load still gets its temp file removed in a
fully consumed run. -/
theorem tmp_files_removed_on_full_run_witness :
    Event.writeTmp "/tmp/tmp0.txt" ∈
      process_documents (fun _ _ => Except.error "boom") (fun t => [t])
        [{ name := "a.txt", content := "hello" }] ∧
    Event.removeTmp "/tmp/tmp0.txt" ∈
      process_documents (fun _ _ => Except.error "boom") (fun t => [t])
        [{ name := "a.txt", content := "hello" }] :=
  ⟨by decide, tmp_files_removed_on_full_run _ _ _ _ (by decide)⟩

/-- C7: a per-file load failure is caught where it occurs and converted into
an emitted status entry, and every file of the batch — in particular every
file after a failing one — still gets its Loading status and its outcome
status in the trace: the batch is never aborted by a per-item failure. -/
theorem per_file_failure_does_not_abort :
    ∀ (load : LoadFn) (split : SplitFn) (files : List UploadedFile)
      (f : UploadedFile), f ∈ files →
      Event.status ("Loading " ++ f.name ++ "...") ∈
          process_documents load split files ∧
      Event.status (perFileOutcome load f) ∈ process_documents load split files ∧
      ∀ msg, load (selectLoader (fileExt f.name)) f.content = Except.error msg →
        Event.status ("❌ Error loading " ++ f.name ++ ": " ++ msg) ∈
          process_documents load split files := by
  intro load split files f hf
  obtain ⟨h1, h2⟩ := loop_statuses_of_mem load 0 files f hf
  refine ⟨?_, ?_, ?_⟩
  · rw [process_documents]
    simp only [List.mem_append]
    exact Or.inl (Or.inl (Or.inr h1))
  · rw [process_documents]
    simp only [List.mem_append]
    exact Or.inl (Or.inl (Or.inr h2))
  · intro msg hmsg
    have houtcome : perFileOutcome load f =
        "❌ Error loading " ++ f.name ++ ": " ++ msg := by
      simp [perFileOutcome, hmsg]
    rw [process_documents]
    simp only [List.mem_append]
    rw [← houtcome]
    exact Or.inl (Or.inl (Or.inr h2))

/-- C7 witness: a two-file batch whose first file fails to load; the second
file is still fully processed. -/
theorem per_file_failure_does_not_abort_witness :
    ({ name := "b.txt", content := "w" } : UploadedFile) ∈
      [({ name := "a.txt", content := "v" } : UploadedFile),
       { name := "b.txt", content := "w" }] ∧
    (Event.status ("Loading " ++ "b.txt" ++ "...") ∈
        process_documents
          (fun _ c => if c = "v" then Except.error "boom"
            else Except.ok [{ pageContent := c, metadata := [] }])
          (fun t => [t])
          [{ name := "a.txt", content := "v" }, { name := "b.txt", content := "w" }] ∧
      Event.status (perFileOutcome
          (fun _ c => if c = "v" then Except.error "boom"
            else Except.ok [{ pageContent := c, metadata := [] }])
          { name := "b.txt", content := "w" }) ∈
        process_documents
          (fun _ c => if c = "v" then Except.error "boom"
            else Except.ok [{ pageContent := c, metadata := [] }])
          (fun t => [t])
          [{ name := "a.txt", content := "v" }, { name := "b.txt", content := "w" }] ∧
      ∀ msg, (fun _ c => if c = "v" then Except.error "boom"
            else Except.ok [{ pageContent := c, metadata := [] }] : LoadFn)
            (selectLoader (fileExt "b.txt")) "w" = Except.error msg →
        Event.status ("❌ Error loading " ++ "b.txt" ++ ": " ++ msg) ∈
          process_documents
            (fun _ c => if c = "v" then Except.error "boom"
              else Except.ok [{ pageContent := c, metadata := [] }])
            (fun t => [t])
            [{ name := "a.txt", content := "v" }, { name := "b.txt", content := "w" }]) :=
  ⟨by decide,
   per_file_failure_does_not_abort
     (fun _ c => if c = "v" then Except.error "boom"
       else Except.ok [{ pageContent := c, metadata := [] }])
     (fun t => [t])
     [{ name := "a.txt", content := "v" }, { name := "b.txt", content := "w" }]
     { name := "b.txt", content := "w" } (by decide)⟩

/-- C5: the sources string of generate_answer is the lexicographically
sorted, deduplicated list of the distinct source metadata values of the
retrieved chunks joined with newlines; it is invariant under reordering of
the retrieved chunks, and empty when no chunk carries source metadata. -/
theorem sources_sorted_dedup_order_invariant :
    ∀ (docs docs' : List Doc),
      docs.Perm docs' →
      sourcesStr docs = sourcesStr docs' ∧
      List.Sorted (fun a b => a ≤ b) (sourceList docs) ∧
      (sourceList docs).Nodup ∧
      (∀ s, s ∈ sourceList docs ↔ ∃ d ∈ docs, docSource d = some s) ∧
      sourcesStr docs = String.intercalate "\n" (sourceList docs) ∧
      ((∀ d ∈ docs, docSource d = none) → sourcesStr docs = "") := by
  intro docs docs' hperm
  have hsorted : ∀ l : List Doc, List.Sorted (fun a b => a ≤ b) (sourceList l) :=
    fun l => List.sorted_insertionSort _ _
  have hcol : (collectSources docs).Perm (collectSources docs') :=
    hperm.filterMap _
  have hded : ((collectSources docs).dedup).Perm ((collectSources docs').dedup) :=
    hcol.dedup
  have hlist : sourceList docs = sourceList docs' := by
    have hp : (sourceList docs).Perm (sourceList docs') :=
      ((List.perm_insertionSort _ _).trans hded).trans
        (List.perm_insertionSort _ _).symm
    exact List.eq_of_perm_of_sorted hp (hsorted docs) (hsorted docs')
  have hguard : collectSources docs = [] ↔ collectSources docs' = [] := by
    rw [← List.length_eq_zero, ← List.length_eq_zero, hcol.length_eq]
  have hstr : sourcesStr docs = sourcesStr docs' := by
    rw [sourcesStr, sourcesStr, hlist]
    by_cases h0 : collectSources docs = []
    · rw [if_pos h0, if_pos (hguard.mp h0)]
    · rw [if_neg h0, if_neg (fun hh => h0 (hguard.mpr hh))]
  have hnodup : (sourceList docs).Nodup :=
    ((List.perm_insertionSort _ _).nodup_iff).mpr (List.nodup_dedup _)
  have hmem : ∀ s, s ∈ sourceList docs ↔ ∃ d ∈ docs, docSource d = some s := by
    intro s
    constructor
    · intro hs
      have hs' : s ∈ (collectSources docs).dedup :=
        (List.perm_insertionSort _ _).mem_iff.mp hs
      exact List.mem_filterMap.mp (List.mem_dedup.mp hs')
    · intro hs
      exact (List.perm_insertionSort _ _).mem_iff.mpr
        (List.mem_dedup.mpr (List.mem_filterMap.mpr hs))
  have hinter : sourcesStr docs = String.intercalate "\n" (sourceList docs) := by
    rw [sourcesStr]
    by_cases h0 : collectSources docs = []
    · rw [if_pos h0, sourceList, h0]
      rfl
    · rw [if_neg h0]
  have hempty : (∀ d ∈ docs, docSource d = none) → sourcesStr docs = "" := by
    intro hnone
    have h0 : collectSources docs = [] := by
      rw [collectSources, List.filterMap_eq_nil_iff]
      exact hnone
    rw [sourcesStr, if_pos h0]
  exact ⟨hstr, hsorted docs, hnodup, hmem, hinter, hempty⟩

/-- C5 witness: two chunks with distinct sources, supplied in both orders. -/
theorem sources_sorted_dedup_order_invariant_witness :
    (([{ pageContent := "x", metadata := [("source", "b")] },
       { pageContent := "y", metadata := [("source", "a")] }] : List Doc).Perm
      [{ pageContent := "y", metadata := [("source", "a")] },
       { pageContent := "x", metadata := [("source", "b")] }]) ∧
    (sourcesStr [{ pageContent := "x", metadata := [("source", "b")] },
        { pageContent := "y", metadata := [("source", "a")] }] =
      sourcesStr [{ pageContent := "y", metadata := [("source", "a")] },
        { pageContent := "x", metadata := [("source", "b")] }] ∧
     List.Sorted (fun a b => a ≤ b)
       (sourceList [{ pageContent := "x", metadata := [("source", "b")] },
         { pageContent := "y", metadata := [("source", "a")] }]) ∧
     (sourceList [{ pageContent := "x", metadata := [("source", "b")] },
        { pageContent := "y", metadata := [("source", "a")] }]).Nodup ∧
     (∀ s, s ∈ sourceList [{ pageContent := "x", metadata := [("source", "b")] },
          { pageContent := "y", metadata := [("source", "a")] }] ↔
        ∃ d ∈ ([{ pageContent := "x", metadata := [("source", "b")] },
          { pageContent := "y", metadata := [("source", "a")] }] : List Doc),
          docSource d = some s) ∧
     sourcesStr [{ pageContent := "x", metadata := [("source", "b")] },
        { pageContent := "y", metadata := [("source", "a")] }] =
       String.intercalate "\n"
         (sourceList [{ pageContent := "x", metadata := [("source", "b")] },
           { pageContent := "y", metadata := [("source", "a")] }]) ∧
     ((∀ d ∈ ([{ pageContent := "x", metadata := [("source", "b")] },
          { pageContent := "y", metadata := [("source", "a")] }] : List Doc),
         docSource d = none) →
       sourcesStr [{ pageContent := "x", metadata := [("source", "b")] },
         { pageContent := "y", metadata := [("source", "a")] }] = "")) :=
  ⟨List.Perm.swap _ _ _,
   sources_sorted_dedup_order_invariant _ _ (List.Perm.swap _ _ _)⟩

/-- C8: with an initialized store, generate_answer builds the prompt context
by joining the retrieved chunks' texts in retrieval order with blank lines,
passes it to the model inside the fixed template, and returns as the answer
the model response's textual content — the empty string when the response is
absent or has no content — together with the sources string of the retrieved
chunks. -/
theorem generate_answer_context_and_answer :
    ∀ (retrieve : RetrieveFn) (llmInvoke : LlmFn) (persisted stored : List Doc)
      (c : Components) (q : String),
      c.store = some stored →
      (generate_answer retrieve llmInvoke persisted c q).2 =
        Except.ok
          ((match llmInvoke (formatPrompt
              (String.intercalate "\n\n" ((retrieve stored q).map Doc.pageContent))
              q) with
            | none => ""
            | some r => r.content.getD ""),
           sourcesStr (retrieve stored q)) := by
  intro retrieve llmInvoke persisted stored c q h
  obtain ⟨l, st⟩ := c
  cases st with
  | none => exact Option.noConfusion h
  | some s =>
      obtain rfl : s = stored := Option.some.inj h
      rfl

/-- C8 witness: one stored chunk, a retriever returning the store, and a
model responding with content "A". -/
theorem generate_answer_context_and_answer_witness :
    ({ llmReady := true,
       store := some [{ pageContent := "txt", metadata := [("source", "u")] }] } :
        Components).store =
      some [{ pageContent := "txt", metadata := [("source", "u")] }] ∧
    (generate_answer (fun s _ => s) (fun _ => some { content := some "A" }) []
        { llmReady := true,
          store := some [{ pageContent := "txt", metadata := [("source", "u")] }] }
        "q").2 = Except.ok ("A", "u") := by
  refine ⟨rfl, ?_⟩
  rw [generate_answer_context_and_answer (fun s _ => s)
    (fun _ => some { content := some "A" }) []
    [{ pageContent := "txt", metadata := [("source", "u")] }]
    { llmReady := true,
      store := some [{ pageContent := "txt", metadata := [("source", "u")] }] }
    "q" rfl]
  rfl

end ResearchTool
